import Mathlib

/-!
Verification of the drug-resolution and interaction-aggregation engine of
`src/app.py` (FastAPI `/check` endpoint).

The external world (the RxNorm identifier service and the interaction
service) is modelled as a `Net` record of response functions: `rxcuiResponse`
gives, for a drug name, the parsed body of `GET /rxcui.json?name=...`
(`none` models a transport error, a non-2xx status, malformed JSON or a
missing `idGroup`/`rxnormId` key; `some l` is the `rxnormId` candidate list),
and `interactionResponse` gives, for the joined identifier string, the parsed
body of `GET /interaction/list.json?rxcuis=...` (`none` models transport or
JSON failure; `some groups` is the `fullInteractionTypeGroup` list).

Python dicts are modelled as insertion-ordered association lists
(`List (String × α)`) with in-place update on an existing key, matching
CPython 3.7+ dict semantics used by `drug_to_rxcui`, `rxcui_to_drug` and
`interaction_map`.
-/

/-- A hazard-table value: `{reason, alternatives}` from `dangerous_drugs`. -/
structure HazardInfo where
  reason : String
  alternatives : List String
deriving DecidableEq, Repr

/-- One element of `fullInteractionType[*].interactionPair`: only its
`description` field is read (`pair.get("description", ...)`); `none` models a
missing key. -/
structure InteractionPairJson where
  description : Option String
deriving DecidableEq, Repr

/-- One element of `fullInteractionTypeGroup[*].fullInteractionType`:
`minConcept` is the list of concept names (`minConcept[i]["name"]`), and
`interactionPair` the list of pairs. -/
structure FullInteractionType where
  minConcept : List String
  interactionPair : List InteractionPairJson
deriving DecidableEq, Repr

/-- One element of the response key `fullInteractionTypeGroup`. -/
structure FullInteractionTypeGroup where
  fullInteractionType : List FullInteractionType
deriving DecidableEq, Repr

/-- A flattened interaction record as built by `get_interactions`:
`{"sourceDrug": ..., "targetDrug": ..., "description": ...}`. -/
structure Interaction where
  sourceDrug : String
  targetDrug : String
  description : String
deriving DecidableEq, Repr

/-- The responses of the two external services for one request. -/
structure Net where
  rxcuiResponse : String → Option (List String)
  interactionResponse : String → Option (List FullInteractionTypeGroup)

/-- The field `interactions` of a report entry is either a list of formatted
interaction strings or a sentinel string (`"None"`, `"Prohibited / Dangerous"`,
`"Unknown (RxCUI not found)"`), exactly as in the Python dict values. -/
inductive InteractionsField where
  | strVal (s : String)
  | listVal (l : List String)
deriving DecidableEq, Repr

/-- One element of the `results` list returned by `check_drugs`. -/
structure ReportEntry where
  drug : String
  interactions : InteractionsField
  age_risk : String
  organ_risks : String
  reason : String
  alternatives : List String
deriving DecidableEq, Repr

/-- The static `dangerous_drugs` table of `src/app.py`, keyed by lowercase
drug name. -/
def dangerous_drugs : List (String × HazardInfo) := [
  ("cocaine", ⟨"Highly addictive and illegal substance. Not approved for medical use in children.",
    ["paracetamol", "ibuprofen"]⟩),
  ("heroin", ⟨"Illicit opioid with high risk of death and no medical use.",
    ["tramadol", "acetaminophen"]⟩),
  ("methamphetamine", ⟨"Highly addictive stimulant. Not safe for general or pediatric use.",
    ["modafinil"]⟩),
  ("lsd", ⟨"Hallucinogenic drug with no FDA-approved therapeutic use.",
    []⟩),
  ("codeine", ⟨"Opioid pain reliever. Dangerous for children under 12 due to risk of respiratory depression.",
    ["paracetamol", "ibuprofen"]⟩),
  ("tramadol", ⟨"Opioid-like painkiller. Not safe for children under 12. Risk of addiction and seizures.",
    ["naproxen", "acetaminophen"]⟩),
  ("diazepam", ⟨"Sedative medication. Should only be used under strict medical supervision in children.",
    ["melatonin", "hydroxyzine"]⟩),
  ("alprazolam", ⟨"Anti-anxiety drug. High risk of dependence and not safe for pediatric use.",
    ["buspirone", "sertraline"]⟩),
  ("morphine", ⟨"Strong opioid. Requires strict dosage control and is generally not suitable for pediatric patients.",
    ["acetaminophen", "naproxen"]⟩),
  ("fentanyl", ⟨"Extremely potent opioid. Risk of overdose. Not safe for general or home use.",
    ["ibuprofen", "tramadol (adult use only)"]⟩),
  ("aspirin", ⟨"Risk of Reye’s syndrome in children under 16. Use with caution.",
    ["acetaminophen", "ibuprofen"]⟩),
  ("warfarin", ⟨"Blood thinner with risk of internal bleeding. Not for unsupervised use in children.",
    ["clopidogrel", "aspirin (under supervision)"]⟩),
  ("acetaminophen", ⟨"Generally safe in proper doses. Risk of liver damage at high doses.",
    ["ibuprofen", "naproxen"]⟩),
  ("ibuprofen", ⟨"Generally safe short-term. Long-term use risks kidney and GI damage.",
    ["paracetamol", "naproxen"]⟩),
  ("naproxen", ⟨"NSAID with similar risks to ibuprofen. Use cautiously in kids.",
    ["acetaminophen", "ibuprofen"]⟩),
  ("clonazepam", ⟨"Benzodiazepine with high risk of dependence. Not for pediatric use unless prescribed.",
    ["melatonin", "hydroxyzine"]⟩),
  ("oxycodone", ⟨"Strong opioid with overdose risk. Avoid pediatric use.",
    ["acetaminophen", "naproxen"]⟩)]

/-- `safe_default_alternatives` of `src/app.py`. -/
def safe_default_alternatives : List String := ["paracetamol", "ibuprofen", "acetaminophen"]

/-- Python-dict insertion: update the (unique) existing binding of the key in
place, else append at the end (CPython 3.7+ ordered-dict semantics). -/
def dictInsert {α : Type} (m : List (String × α)) (k : String) (v : α) : List (String × α) :=
  match m with
  | [] => [(k, v)]
  | (a, b) :: rest => if a == k then (a, v) :: rest else (a, b) :: dictInsert rest k v

/-- `interaction_map[drug].append(x)`: append `x` to the value bound to `k`. -/
def dictAppend (m : List (String × List String)) (k : String) (x : String) : List (String × List String) :=
  m.map (fun p => if p.1 == k then (p.1, p.2 ++ [x]) else p)

/-- `get_rxcui` of `src/app.py`: first element of `idGroup.rxnormId`, `none`
on any exception or missing key (the `[None][0]` default and the exception
handler both yield `None`; an empty candidate list raises `IndexError`,
caught by the same handler). -/
def get_rxcui (net : Net) (drug_name : String) : Option String :=
  match net.rxcuiResponse drug_name with
  | none => none
  | some [] => none
  | some (x :: _) => some x

/-- Parse one `fullInteractionType` element: for each `interactionPair`,
Python reads `minConcept[0]["name"]` and `minConcept[1]["name"]`; with a
non-empty pair list and fewer than two concepts that raises, which the
enclosing handler turns into a whole-response failure (`none` here). With an
empty pair list `minConcept` is never accessed. -/
def parseOne (t : FullInteractionType) : Option (List Interaction) :=
  if t.interactionPair.isEmpty then some []
  else
    match t.minConcept with
    | c0 :: c1 :: _ =>
      some (t.interactionPair.map (fun p =>
        ⟨c0, c1, p.description.getD "No description available."⟩))
    | _ => none

/-- Parse the flattened `fullInteractionType` list; any malformed element
aborts the whole parse (the Python `try` wraps the entire loop, discarding
already-appended records). -/
def parsePairs : List FullInteractionType → Option (List Interaction)
  | [] => some []
  | t :: rest =>
    match parseOne t with
    | none => none
    | some ps => (parsePairs rest).map (fun r => ps ++ r)

/-- `get_interactions` of `src/app.py`: join the identifiers with `+`, issue
the batched request, return the flattened interaction list; any transport or
parse failure yields `[]`. -/
def get_interactions (net : Net) (rxcui_list : List String) : List Interaction :=
  let joined_ids := String.intercalate "+" rxcui_list
  match net.interactionResponse joined_ids with
  | none => []
  | some data =>
    (parsePairs (data.flatMap FullInteractionTypeGroup.fullInteractionType)).getD []

/-- Python `str.lower()` (identical to `String.toLower` — it lowercases each
character — but defined by structural recursion over the character list so
that concrete runs reduce inside the kernel). -/
def pyLower (s : String) : String := ⟨s.data.map Char.toLower⟩

/-- Hazard-table lookup `dangerous_drugs[drug.lower()]` (case-insensitive). -/
def hazardInfo (drug : String) : Option HazardInfo :=
  List.lookup (pyLower drug) dangerous_drugs

/-- The entry appended in Step 1 of `check_drugs` for a hazard-table hit. -/
def hazardEntry (drug : String) (info : HazardInfo) : ReportEntry :=
  ⟨drug, .strVal "Prohibited / Dangerous", "Severe Risk", "High toxicity",
   info.reason, info.alternatives⟩

/-- Step 1 of `check_drugs`: one hazard entry per flagged input drug, in
input order. -/
def hazardResults (drugs : List String) : List ReportEntry :=
  drugs.filterMap (fun d => (hazardInfo d).map (hazardEntry d))

/-- Step 2 of `check_drugs`: drugs whose lowercased name is not a hazard-table
key. -/
def safe_drugs (drugs : List String) : List String :=
  drugs.filter (fun d => (hazardInfo d).isNone)

/-- The entry appended in Step 3 of `check_drugs` when resolution fails. -/
def unknownEntry (drug : String) : ReportEntry :=
  ⟨drug, .strVal "Unknown (RxCUI not found)", "Unknown", "Unknown",
   "Could not identify drug in RxNorm", []⟩

/-- The mutable state threaded through Step 3 of `check_drugs`. -/
structure ResolutionState where
  results : List ReportEntry
  drug_to_rxcui : List (String × String)
  rxcui_to_drug : List (String × String)
deriving DecidableEq, Repr

/-- One iteration of Step 3: `if rxcui:` is Python truthiness, so `None` and
the empty string both take the failure branch. -/
def resolveStep (net : Net) (st : ResolutionState) (drug : String) : ResolutionState :=
  match get_rxcui net drug with
  | some r =>
    if r == "" then { st with results := st.results ++ [unknownEntry drug] }
    else { st with drug_to_rxcui := dictInsert st.drug_to_rxcui drug r,
                   rxcui_to_drug := dictInsert st.rxcui_to_drug r drug }
  | none => { st with results := st.results ++ [unknownEntry drug] }

/-- Step 3 of `check_drugs` over the whole safe-drug list. -/
def resolveAll (net : Net) (drugs : List String) : ResolutionState :=
  (safe_drugs drugs).foldl (resolveStep net) ⟨[], [], []⟩

/-- Whether Step 3 takes the failure branch for `d` (Python `not rxcui`). -/
def resolutionFailed (net : Net) (d : String) : Bool :=
  match get_rxcui net d with
  | some r => r == ""
  | none => true

/-- `valid_rxcuis = list(drug_to_rxcui.values())`, in insertion order. -/
def valid_rxcuis (net : Net) (drugs : List String) : List String :=
  (resolveAll net drugs).drug_to_rxcui.map (·.2)

/-- The formatted string `f"{source} ↔ {target}: {description}"`. -/
def fmtInteraction (i : Interaction) : String :=
  i.sourceDrug ++ " ↔ " ++ i.targetDrug ++ ": " ++ i.description

/-- The attribution test `drug.lower() in [source.lower(), target.lower()]`. -/
def matchesDrug (d : String) (i : Interaction) : Bool :=
  pyLower d == pyLower i.sourceDrug || pyLower d == pyLower i.targetDrug

/-- The inner attribution loop of Step 4: for one flattened interaction, scan
every (occurrence of a) safe drug and append the formatted string to its map
entry when the name matches. -/
def attrStep (safe : List String) (m : List (String × List String)) (inter : Interaction) :
    List (String × List String) :=
  safe.foldl (fun m d => if matchesDrug d inter then dictAppend m d (fmtInteraction inter) else m) m

/-- The dict comprehension `{drug: [] for drug in safe_drugs}`. -/
def initInteractionMap (safe : List String) : List (String × List String) :=
  safe.foldl (fun m d => dictInsert m d ([] : List String)) []

/-- `interaction_map` as it stands after Step 4 of `check_drugs`: initialised
per safe drug, then filled from the batched interaction call — which is made
only when more than one identifier resolved. -/
def interaction_map (net : Net) (drugs : List String) : List (String × List String) :=
  let safe := safe_drugs drugs
  let init := initInteractionMap safe
  let valid := valid_rxcuis net drugs
  if valid.length > 1 then (get_interactions net valid).foldl (attrStep safe) init
  else init

/-- The entry appended in Step 5 of `check_drugs` for one safe drug, given
its attributed interaction list `related`. -/
def finalEntry (age : Int) (drug : String) (related : List String) : ReportEntry :=
  ⟨drug,
   if related.isEmpty then .strVal "None" else .listVal related,
   if age > 12 then "Low" else "Needs pediatric check",
   "None",
   if related.isEmpty then "Safe drug for age" else "Interactions found",
   if related.isEmpty then safe_default_alternatives else []⟩

/-- Step 5 of `check_drugs`: one final entry per (occurrence of a) safe drug,
in input order, reading `interaction_map.get(drug, [])`. -/
def finalResults (net : Net) (drugs : List String) (age : Int) : List ReportEntry :=
  (safe_drugs drugs).map (fun d =>
    finalEntry age d ((List.lookup d (interaction_map net drugs)).getD []))

/-- `check_drugs` of `src/app.py`: the `results` list of the `/check`
response, built by the three appending passes. -/
def check_drugs (net : Net) (drugs : List String) (age : Int) : List ReportEntry :=
  hazardResults drugs ++ (resolveAll net drugs).results ++ finalResults net drugs age

/-! ### Concrete service environments used to settle individual claims -/

/-- Environment in which every external call fails. -/
def C1_net : Net := ⟨fun _ => none, fun _ => none⟩

/-- Environment in which no drug resolves (used for the resolution-failure
duplicate-entry run). -/
def C6_net : Net := ⟨fun _ => none, fun _ => none⟩

/-- Environment in which only "amlodipine" resolves. -/
def C5_net : Net := ⟨fun x => if x == "amlodipine" then some ["17767"] else none, fun _ => none⟩

/-- Environment in which nothing resolves and no interactions exist. -/
def C2_netA : Net := ⟨fun _ => none, fun _ => none⟩

/-- Environment identical to `C2_netA` except at the name "heroin". -/
def C2_netB : Net := ⟨fun x => if x == "heroin" then some ["3304"] else none, fun _ => none⟩

/-- Environment where "tylenol" and "coumadin" resolve to 161 and 11289 and
the batched call reports one pair under the resolved concept names
"Acetaminophen" and "Warfarin". -/
def C3_net : Net :=
  ⟨fun x => if x == "tylenol" then some ["161"] else if x == "coumadin" then some ["11289"] else none,
   fun s => if s == "161+11289" then
     some [⟨[⟨["Acetaminophen", "Warfarin"], [⟨some "Increased bleeding risk."⟩]⟩]⟩] else none⟩

/-- Environment where "tylenol" and "coumadin" resolve and the batched call
reports one pair under the concept names "Tylenol" and "Coumadin". -/
def C4_net : Net :=
  ⟨fun x => if x == "tylenol" then some ["161"] else if x == "coumadin" then some ["11289"] else none,
   fun s => if s == "161+11289" then
     some [⟨[⟨["Tylenol", "Coumadin"], [⟨some "Risk of bleeding."⟩]⟩]⟩] else none⟩

/-- Environment where two drugs resolve but the batched interaction call
fails at the transport level. -/
def C7_net : Net :=
  ⟨fun x => if x == "metformin" then some ["6809"]
    else if x == "lisinopril" then some ["29046"] else none,
   fun _ => none⟩

/-- Environment where every drug resolves to the single identifier "42". -/
def C8_net : Net := ⟨fun _ => some ["42"], fun _ => none⟩

/-- Environment where every drug resolves (single identifier). -/
def C9_net : Net := ⟨fun _ => some ["42"], fun _ => none⟩

/-! ### Association-list (Python dict) lemmas -/

theorem lookup_cons_self {α : Type} (k : String) (v : α) (l : List (String × α)) :
    List.lookup k ((k, v) :: l) = some v := by
  simp [List.lookup]

theorem lookup_cons_ne {α : Type} (k a : String) (v : α) (l : List (String × α))
    (h : k ≠ a) : List.lookup k ((a, v) :: l) = List.lookup k l := by
  simp [List.lookup, beq_false_of_ne h]

theorem lookup_dictInsert_self {α : Type} (m : List (String × α)) (k : String) (v : α) :
    List.lookup k (dictInsert m k v) = some v := by
  induction m with
  | nil => simp [dictInsert, lookup_cons_self]
  | cons p rest ih =>
    obtain ⟨a, b⟩ := p
    by_cases h : a = k
    · subst h
      simp [dictInsert, lookup_cons_self]
    · rw [dictInsert, if_neg (by simp [h]), lookup_cons_ne _ _ _ _ (Ne.symm h), ih]

theorem lookup_dictInsert_ne {α : Type} (m : List (String × α)) (k k' : String) (v : α)
    (h : k' ≠ k) : List.lookup k' (dictInsert m k v) = List.lookup k' m := by
  induction m with
  | nil =>
    show List.lookup k' [(k, v)] = List.lookup k' ([] : List (String × α))
    rw [lookup_cons_ne _ _ _ _ h]
  | cons p rest ih =>
    obtain ⟨a, b⟩ := p
    by_cases ha : a = k
    · subst ha
      rw [dictInsert, if_pos (by simp), lookup_cons_ne _ _ _ _ h, lookup_cons_ne _ _ _ _ h]
    · by_cases had : k' = a
      · subst had
        rw [dictInsert, if_neg (by simp [ha]), lookup_cons_self, lookup_cons_self]
      · rw [dictInsert, if_neg (by simp [ha]), lookup_cons_ne _ _ _ _ had,
          lookup_cons_ne _ _ _ _ had, ih]

theorem lookup_dictAppend (m : List (String × List String)) (x d s : String) :
    List.lookup d (dictAppend m x s)
      = (List.lookup d m).map (fun l => if d = x then l ++ [s] else l) := by
  induction m with
  | nil => simp [dictAppend, List.lookup]
  | cons p rest ih =>
    obtain ⟨a, b⟩ := p
    by_cases hax : a = x
    · subst hax
      by_cases had : d = a
      · subst had
        simp only [dictAppend, List.map_cons, beq_self_eq_true, if_pos]
        rw [lookup_cons_self, lookup_cons_self]
        simp
      · simp only [dictAppend, List.map_cons, beq_self_eq_true, if_pos]
        rw [lookup_cons_ne _ _ _ _ had, lookup_cons_ne _ _ _ _ had]
        exact ih
    · by_cases had : d = a
      · subst had
        simp only [dictAppend, List.map_cons, beq_false_of_ne hax]
        rw [if_neg (by simp)]
        rw [lookup_cons_self, lookup_cons_self]
        simp [hax]
      · simp only [dictAppend, List.map_cons, beq_false_of_ne hax]
        rw [if_neg (by simp)]
        rw [lookup_cons_ne _ _ _ _ had, lookup_cons_ne _ _ _ _ had]
        exact ih

/-! ### Resolution-pass (Step 3) lemmas -/

theorem resolveStep_results_ok (net : Net) (st : ResolutionState) (x : String)
    (h : resolutionFailed net x = false) :
    (resolveStep net st x).results = st.results := by
  unfold resolveStep
  unfold resolutionFailed at h
  cases hg : get_rxcui net x with
  | none => rw [hg] at h; exact absurd h (by simp)
  | some r =>
    have h2 : (r == "") = false := by rw [hg] at h; exact h
    simp [h2]

theorem resolveStep_results_failed (net : Net) (st : ResolutionState) (x : String)
    (h : resolutionFailed net x = true) :
    (resolveStep net st x).results = st.results ++ [unknownEntry x] := by
  unfold resolveStep
  unfold resolutionFailed at h
  cases hg : get_rxcui net x with
  | none => simp
  | some r =>
    have h2 : (r == "") = true := by rw [hg] at h; exact h
    simp [h2]

theorem resolve_foldl_results (net : Net) (l : List String) (st : ResolutionState) :
    (l.foldl (resolveStep net) st).results
      = st.results ++ (l.filter (fun d => resolutionFailed net d)).map unknownEntry := by
  induction l generalizing st with
  | nil => simp
  | cons x xs ih =>
    rw [List.foldl_cons, ih]
    cases hf : resolutionFailed net x with
    | false => rw [resolveStep_results_ok net st x hf, List.filter_cons_of_neg (by simp [hf])]
    | true =>
      rw [resolveStep_results_failed net st x hf, List.filter_cons_of_pos (by simp [hf]),
        List.map_cons, List.append_assoc]
      rfl

theorem resolveStep_d2r_ok (net : Net) (st : ResolutionState) (x r : String)
    (hg : get_rxcui net x = some r) (hr : r ≠ "") :
    (resolveStep net st x).drug_to_rxcui = dictInsert st.drug_to_rxcui x r := by
  unfold resolveStep
  rw [hg]
  simp only [beq_false_of_ne hr]
  rfl

theorem resolveStep_d2r_failed (net : Net) (st : ResolutionState) (x : String)
    (h : resolutionFailed net x = true) :
    (resolveStep net st x).drug_to_rxcui = st.drug_to_rxcui := by
  unfold resolveStep
  unfold resolutionFailed at h
  cases hg : get_rxcui net x with
  | none => simp
  | some r =>
    have h2 : (r == "") = true := by rw [hg] at h; exact h
    simp [h2]

theorem resolveStep_r2d_ok (net : Net) (st : ResolutionState) (x r : String)
    (hg : get_rxcui net x = some r) (hr : r ≠ "") :
    (resolveStep net st x).rxcui_to_drug = dictInsert st.rxcui_to_drug r x := by
  unfold resolveStep
  rw [hg]
  simp only [beq_false_of_ne hr]
  rfl

theorem resolveStep_r2d_failed (net : Net) (st : ResolutionState) (x : String)
    (h : resolutionFailed net x = true) :
    (resolveStep net st x).rxcui_to_drug = st.rxcui_to_drug := by
  unfold resolveStep
  unfold resolutionFailed at h
  cases hg : get_rxcui net x with
  | none => simp
  | some r =>
    have h2 : (r == "") = true := by rw [hg] at h; exact h
    simp [h2]

theorem lookup_d2r_foldl (net : Net) (l : List String) (st : ResolutionState)
    (d r : String) (hg : get_rxcui net d = some r) (hr : r ≠ "")
    (h : List.lookup d st.drug_to_rxcui = some r ∨ d ∈ l) :
    List.lookup d ((l.foldl (resolveStep net) st)).drug_to_rxcui = some r := by
  induction l generalizing st with
  | nil =>
    rcases h with h | h
    · simpa using h
    · exact absurd h (List.not_mem_nil d)
  | cons x xs ih =>
    rw [List.foldl_cons]
    apply ih
    by_cases hxd : x = d
    · subst hxd
      left
      rw [resolveStep_d2r_ok net st x r hg hr, lookup_dictInsert_self]
    · rcases h with h | h
      · left
        cases hf : resolutionFailed net x with
        | true => rw [resolveStep_d2r_failed net st x hf]; exact h
        | false =>
          unfold resolutionFailed at hf
          cases hgx : get_rxcui net x with
          | none => rw [hgx] at hf; exact absurd hf (by simp)
          | some rx =>
            rw [hgx] at hf
            have hrx : rx ≠ "" := by simpa using hf
            rw [resolveStep_d2r_ok net st x rx hgx hrx,
              lookup_dictInsert_ne _ _ _ _ (fun hdx => hxd hdx.symm)]
            exact h
      · rcases List.mem_cons.mp h with h | h
        · exact absurd h.symm hxd
        · exact Or.inr h

theorem lookup_r2d_foldl (net : Net) (l : List String) (st : ResolutionState) (r : String)
    (h : (∃ d2, List.lookup r st.rxcui_to_drug = some d2 ∧ get_rxcui net d2 = some r)
      ∨ (∃ d2, d2 ∈ l ∧ get_rxcui net d2 = some r ∧ r ≠ "")) :
    ∃ d2, List.lookup r ((l.foldl (resolveStep net) st)).rxcui_to_drug = some d2
      ∧ get_rxcui net d2 = some r := by
  induction l generalizing st with
  | nil =>
    rcases h with h | ⟨d2, hm, _⟩
    · simpa using h
    · exact absurd hm (List.not_mem_nil d2)
  | cons x xs ih =>
    rw [List.foldl_cons]
    apply ih
    cases hf : resolutionFailed net x with
    | true =>
      rcases h with ⟨d2, hl, hgd⟩ | ⟨d2, hm, hgd, hr⟩
      · left
        exact ⟨d2, by rw [resolveStep_r2d_failed net st x hf]; exact hl, hgd⟩
      · rcases List.mem_cons.mp hm with hm | hm
        · subst hm
          unfold resolutionFailed at hf
          rw [hgd] at hf
          exact absurd hr (by simpa using hf)
        · exact Or.inr ⟨d2, hm, hgd, hr⟩
    | false =>
      unfold resolutionFailed at hf
      cases hgx : get_rxcui net x with
      | none => rw [hgx] at hf; exact absurd hf (by simp)
      | some rx =>
        rw [hgx] at hf
        have hrx : rx ≠ "" := by simpa using hf
        by_cases hxr : rx = r
        · subst hxr
          left
          exact ⟨x, by rw [resolveStep_r2d_ok net st x rx hgx hrx, lookup_dictInsert_self], hgx⟩
        · rcases h with ⟨d2, hl, hgd⟩ | ⟨d2, hm, hgd, hr⟩
          · left
            refine ⟨d2, ?_, hgd⟩
            rw [resolveStep_r2d_ok net st x rx hgx hrx,
              lookup_dictInsert_ne _ _ _ _ (fun hrr => hxr hrr.symm)]
            exact hl
          · rcases List.mem_cons.mp hm with hm | hm
            · subst hm
              rw [hgd] at hgx
              exact absurd (Option.some.inj hgx).symm hxr
            · exact Or.inr ⟨d2, hm, hgd, hr⟩

theorem foldl_resolveStep_congr (net net' : Net) (l : List String) (st : ResolutionState)
    (h : ∀ x ∈ l, net'.rxcuiResponse x = net.rxcuiResponse x) :
    l.foldl (resolveStep net') st = l.foldl (resolveStep net) st := by
  induction l generalizing st with
  | nil => rfl
  | cons x xs ih =>
    rw [List.foldl_cons, List.foldl_cons]
    have hx : get_rxcui net' x = get_rxcui net x := by
      unfold get_rxcui
      rw [h x (List.mem_cons_self x xs)]
    rw [show resolveStep net' st x = resolveStep net st x from by unfold resolveStep; rw [hx]]
    exact ih _ (fun y hy => h y (List.mem_cons_of_mem x hy))

/-! ### Attribution-pass (Step 4) lemmas -/

theorem lookup_initMap_foldl (l : List String) (m : List (String × List String)) (d : String)
    (h : List.lookup d m = some [] ∨ d ∈ l) :
    List.lookup d (l.foldl (fun m x => dictInsert m x ([] : List String)) m) = some [] := by
  induction l generalizing m with
  | nil =>
    rcases h with h | h
    · simpa using h
    · exact absurd h (List.not_mem_nil d)
  | cons x xs ih =>
    rw [List.foldl_cons]
    apply ih
    by_cases hxd : x = d
    · subst hxd
      left
      rw [lookup_dictInsert_self]
    · rcases h with h | h
      · left
        rw [lookup_dictInsert_ne _ _ _ _ (fun hdx => hxd hdx.symm)]
        exact h
      · rcases List.mem_cons.mp h with h | h
        · exact absurd h.symm hxd
        · exact Or.inr h

theorem lookup_initInteractionMap (safe : List String) (d : String) (h : d ∈ safe) :
    List.lookup d (initInteractionMap safe) = some [] :=
  lookup_initMap_foldl safe [] d (Or.inr h)

theorem lookup_attrStep (safe : List String) (m : List (String × List String))
    (inter : Interaction) (d : String) :
    List.lookup d (attrStep safe m inter)
      = (List.lookup d m).map (fun l =>
          if matchesDrug d inter then l ++ List.replicate (safe.count d) (fmtInteraction inter)
          else l) := by
  unfold attrStep
  induction safe generalizing m with
  | nil =>
    simp only [List.foldl_nil, List.count_nil, List.replicate_zero, List.append_nil]
    cases List.lookup d m <;> simp
  | cons x xs ih =>
    rw [List.foldl_cons, ih]
    by_cases hx : x = d
    · subst hx
      by_cases hm : matchesDrug x inter
      · rw [if_pos hm, lookup_dictAppend]
        cases hl : List.lookup x m with
        | none => simp
        | some l =>
          simp only [Option.map_some, Option.map_map, hm, if_pos, if_true]
          simp [List.count_cons_self, List.replicate_succ, List.append_assoc, hm]
      · rw [if_neg hm]
        cases hl : List.lookup x m with
        | none => simp
        | some l => simp [hm]
    · have hdx : (x == d) = false := beq_false_of_ne hx
      have hcount : List.count d (x :: xs) = List.count d xs := by
        rw [List.count_cons, hdx]
        simp
      by_cases hm : matchesDrug x inter
      · rw [if_pos hm, lookup_dictAppend]
        cases hl : List.lookup d m with
        | none => simp
        | some l =>
          rw [hcount]
          simp [Ne.symm hx]
      · rw [if_neg hm, hcount]

theorem lookup_attr_foldl (safe : List String) (inters : List Interaction)
    (m : List (String × List String)) (d : String) (l : List String)
    (h : List.lookup d m = some l) :
    List.lookup d (inters.foldl (attrStep safe) m)
      = some (l ++ inters.flatMap (fun i =>
          if matchesDrug d i then List.replicate (safe.count d) (fmtInteraction i) else [])) := by
  induction inters generalizing m l with
  | nil => simpa using h
  | cons i rest ih =>
    rw [List.foldl_cons]
    have h1 : List.lookup d (attrStep safe m i)
        = some (if matchesDrug d i then l ++ List.replicate (safe.count d) (fmtInteraction i)
                else l) := by
      rw [lookup_attrStep, h]
      rfl
    rw [ih _ _ h1]
    by_cases hm : matchesDrug d i
    · simp [hm, List.flatMap_cons, List.append_assoc]
    · simp [hm, List.flatMap_cons]

theorem lookup_interaction_map (net : Net) (drugs : List String) (d : String)
    (hd : d ∈ safe_drugs drugs) :
    List.lookup d (interaction_map net drugs)
      = some (if (valid_rxcuis net drugs).length > 1 then
          (get_interactions net (valid_rxcuis net drugs)).flatMap (fun i =>
            if matchesDrug d i then
              List.replicate ((safe_drugs drugs).count d) (fmtInteraction i)
            else [])
        else []) := by
  unfold interaction_map
  by_cases hc : (valid_rxcuis net drugs).length > 1
  · rw [if_pos hc, if_pos hc,
      lookup_attr_foldl _ _ _ _ [] (lookup_initInteractionMap _ _ hd)]
    simp
  · rw [if_neg hc, if_neg hc, lookup_initInteractionMap _ _ hd]

theorem flatMap_singleton_filter (inters : List Interaction) (d : String) :
    (inters.flatMap (fun i =>
      if matchesDrug d i then [fmtInteraction i] else []))
      = (inters.filter (fun i => matchesDrug d i)).map fmtInteraction := by
  induction inters with
  | nil => simp
  | cons i rest ih =>
    by_cases hm : matchesDrug d i
    · simp [List.flatMap_cons, hm, ih, List.filter_cons]
    · simp [List.flatMap_cons, hm, ih, List.filter_cons]

/-! ### Structural lemmas about the whole pipeline -/

theorem resolveAll_congr (net net' : Net) (drugs : List String)
    (h : ∀ x ∈ safe_drugs drugs, net'.rxcuiResponse x = net.rxcuiResponse x) :
    resolveAll net' drugs = resolveAll net drugs :=
  foldl_resolveStep_congr net net' _ _ h

theorem get_interactions_congr (net net' : Net) (l : List String)
    (h : net'.interactionResponse = net.interactionResponse) :
    get_interactions net' l = get_interactions net l := by
  unfold get_interactions
  rw [h]

theorem check_drugs_congr (net net' : Net) (drugs : List String) (age : Int)
    (h1 : ∀ x ∈ safe_drugs drugs, net'.rxcuiResponse x = net.rxcuiResponse x)
    (h2 : net'.interactionResponse = net.interactionResponse) :
    check_drugs net' drugs age = check_drugs net drugs age := by
  have hra : resolveAll net' drugs = resolveAll net drugs := resolveAll_congr net net' drugs h1
  have hv : valid_rxcuis net' drugs = valid_rxcuis net drugs := by
    unfold valid_rxcuis
    rw [hra]
  have him : interaction_map net' drugs = interaction_map net drugs := by
    unfold interaction_map
    simp only [hv, get_interactions_congr net net' (valid_rxcuis net drugs) h2]
  unfold check_drugs finalResults
  rw [hra, him]

theorem interaction_map_skip (net : Net) (drugs : List String)
    (h : ¬ (valid_rxcuis net drugs).length > 1) :
    interaction_map net drugs = initInteractionMap (safe_drugs drugs) := by
  unfold interaction_map
  rw [if_neg h]

theorem finalResults_of_empty_map (net : Net) (drugs : List String) (age : Int)
    (h : ∀ d ∈ safe_drugs drugs, (List.lookup d (interaction_map net drugs)).getD [] = []) :
    finalResults net drugs age = (safe_drugs drugs).map (fun d => finalEntry age d []) := by
  unfold finalResults
  exact List.map_congr_left (fun d hd => by rw [h d hd])

theorem hazardResults_map_drug (drugs : List String) :
    (hazardResults drugs).map ReportEntry.drug
      = drugs.filter (fun d => (hazardInfo d).isSome) := by
  induction drugs with
  | nil => rfl
  | cons d rest ih =>
    unfold hazardResults at ih ⊢
    cases h : hazardInfo d with
    | none => simp [List.filterMap_cons, h, ih, List.filter_cons]
    | some i => simp [List.filterMap_cons, h, ih, List.filter_cons, hazardEntry]

theorem map_drug_finalEntry (l : List String) (age : Int) (f : String → List String) :
    ((l.map (fun d => finalEntry age d (f d))).map ReportEntry.drug) = l := by
  induction l with
  | nil => rfl
  | cons d rest ih => simp [finalEntry] at ih ⊢; exact ih

theorem finalResults_map_drug (net : Net) (drugs : List String) (age : Int) :
    (finalResults net drugs age).map ReportEntry.drug = safe_drugs drugs := by
  unfold finalResults
  exact map_drug_finalEntry _ age _

theorem map_drug_unknownEntry (l : List String) :
    (l.map unknownEntry).map ReportEntry.drug = l := by
  induction l with
  | nil => rfl
  | cons d rest ih => simp [unknownEntry] at ih ⊢; exact ih


/-! ### Claim theorems -/

/-- Claim C1 (refuted by the code, evaluation at the failing input): for the
single input drug "madeupdrugxyz" whose identifier resolution fails,
`check_drugs` returns two report entries — the terminal unknown entry from the
resolution pass and a second, contradictory "Safe drug for age" entry from the
final pass — so `len(results) == len(drugs)` fails (2 ≠ 1). -/
theorem C1_evaluation :
    check_drugs C1_net ["madeupdrugxyz"] 30
      = [unknownEntry "madeupdrugxyz", finalEntry 30 "madeupdrugxyz" []]
    ∧ (check_drugs C1_net ["madeupdrugxyz"] 30).length = 2 := by
  constructor
  · rfl
  · rfl

/-- Claim C5 (refuted by the code, evaluation at the failing input): with
"amlodipine" resolving and "lisinopril" failing, the third block of the
output is not "all resolved entries in input order": it contains a final-pass
entry for the unresolved "lisinopril" as well, which therefore appears both
in the failure block and in the final block. -/
theorem C5_evaluation :
    get_rxcui C5_net "lisinopril" = none
    ∧ check_drugs C5_net ["amlodipine", "lisinopril"] 30
        = [unknownEntry "lisinopril", finalEntry 30 "amlodipine" [],
           finalEntry 30 "lisinopril" []] := by
  constructor
  · rfl
  · rfl

/-- Claim C6 (refuted by the code, evaluation at the failing input): the
resolution-failure entry carries exactly the claimed field values, but it is
not terminal — the same drug receives a second entry ("Safe drug for age",
default alternatives) from the final pass. -/
theorem C6_evaluation :
    hazardInfo "novodrug" = none
    ∧ get_rxcui C6_net "novodrug" = none
    ∧ check_drugs C6_net ["novodrug"] 7
        = [⟨"novodrug", .strVal "Unknown (RxCUI not found)", "Unknown", "Unknown",
            "Could not identify drug in RxNorm", []⟩,
           ⟨"novodrug", .strVal "None", "Needs pediatric check", "None",
            "Safe drug for age", safe_default_alternatives⟩] := by
  refine ⟨rfl, rfl, rfl⟩

/-- Claim C2: a drug whose lowercased name is a hazard-table key always
contributes the terminal "Prohibited / Dangerous" entry (fields from the
table), for every environment, age and batch; it is excluded from the
safe-drug list (hence from identifier resolution), and the whole output is
unchanged under any modification of the resolver's response at that name, so
its identifier can never reach the interaction-service request. -/
theorem C2_hazard_terminal (net net' : Net) (drugs : List String) (age : Int)
    (d : String) (info : HazardInfo)
    (hhaz : hazardInfo d = some info) (hmem : d ∈ drugs)
    (hres : ∀ x, x ≠ d → net'.rxcuiResponse x = net.rxcuiResponse x)
    (hint : net'.interactionResponse = net.interactionResponse) :
    hazardEntry d info ∈ check_drugs net drugs age
    ∧ d ∉ safe_drugs drugs
    ∧ check_drugs net' drugs age = check_drugs net drugs age := by
  refine ⟨?_, ?_, ?_⟩
  · have hmemhaz : hazardEntry d info ∈ hazardResults drugs := by
      unfold hazardResults
      exact List.mem_filterMap.mpr ⟨d, hmem, by rw [hhaz]; rfl⟩
    unfold check_drugs
    exact List.mem_append_left _ (List.mem_append_left _ hmemhaz)
  · intro hsafe
    have hnone := (List.mem_filter.mp hsafe).2
    rw [hhaz] at hnone
    simp at hnone
  · apply check_drugs_congr
    · intro x hx
      apply hres
      intro hxd
      subst hxd
      have hnone := (List.mem_filter.mp hx).2
      rw [hhaz] at hnone
      simp at hnone
    · exact hint

/-- Witness for C2 at the concrete batch `["heroin", "paracetamolum"]` with
age 5 and two environments differing exactly at the name "heroin". -/
theorem C2_witness :
    hazardEntry "heroin"
        ⟨"Illicit opioid with high risk of death and no medical use.",
         ["tramadol", "acetaminophen"]⟩
        ∈ check_drugs C2_netA ["heroin", "paracetamolum"] 5
    ∧ "heroin" ∉ safe_drugs ["heroin", "paracetamolum"]
    ∧ check_drugs C2_netB ["heroin", "paracetamolum"] 5
        = check_drugs C2_netA ["heroin", "paracetamolum"] 5 :=
  C2_hazard_terminal C2_netA C2_netB ["heroin", "paracetamolum"] 5 "heroin"
    ⟨"Illicit opioid with high risk of death and no medical use.",
     ["tramadol", "acetaminophen"]⟩
    (by rfl) (by decide)
    (fun x hx => by
      show (if x == "heroin" then some ["3304"] else none) = none
      rw [if_neg (by simp [beq_false_of_ne hx])])
    rfl

/-- Claim C3 counterexample: both associations are recorded ("tylenol"→"161",
"161"→"tylenol", "coumadin"→"11289", "11289"→"coumadin") and the batched call
returns a pair naming the resolved concepts ("Acetaminophen", the concept of
identifier 161, and "Warfarin", that of 11289), yet the pair is attributed to
neither input name: both entries read "None". The identifier-to-name map is
never consulted, so a pair whose concept names differ from the input names is
dropped, contrary to the claim. -/
theorem C3_counterexample :
    (resolveAll C3_net ["tylenol", "coumadin"]).drug_to_rxcui
        = [("tylenol", "161"), ("coumadin", "11289")]
    ∧ (resolveAll C3_net ["tylenol", "coumadin"]).rxcui_to_drug
        = [("161", "tylenol"), ("11289", "coumadin")]
    ∧ (valid_rxcuis C3_net ["tylenol", "coumadin"]).length > 1
    ∧ get_interactions C3_net (valid_rxcuis C3_net ["tylenol", "coumadin"])
        = [⟨"Acetaminophen", "Warfarin", "Increased bleeding risk."⟩]
    ∧ check_drugs C3_net ["tylenol", "coumadin"] 30
        = [finalEntry 30 "tylenol" [], finalEntry 30 "coumadin" []] := by
  refine ⟨rfl, rfl, by decide, rfl, rfl⟩

/-- Claim C3 (amended): for every drug that resolves successfully the engine
records the name-to-identifier association, and the identifier-to-name map
holds some name that resolved to that identifier (a later drug resolving to
the same identifier overwrites an earlier one); but interaction results are
not mapped back through these associations: the drug's attributed list is
determined entirely by direct case-insensitive comparison of the input name
with each pair's concept names. -/
theorem C3_amended (net : Net) (drugs : List String) (d r : String)
    (hd : d ∈ safe_drugs drugs) (hr : get_rxcui net d = some r) (hr2 : r ≠ "") :
    List.lookup d (resolveAll net drugs).drug_to_rxcui = some r
    ∧ (∃ d2, List.lookup r (resolveAll net drugs).rxcui_to_drug = some d2
        ∧ get_rxcui net d2 = some r)
    ∧ List.lookup d (interaction_map net drugs)
        = some (if (valid_rxcuis net drugs).length > 1 then
            (get_interactions net (valid_rxcuis net drugs)).flatMap (fun i =>
              if matchesDrug d i then
                List.replicate ((safe_drugs drugs).count d) (fmtInteraction i)
              else [])
          else []) := by
  refine ⟨?_, ?_, lookup_interaction_map net drugs d hd⟩
  · unfold resolveAll
    exact lookup_d2r_foldl net (safe_drugs drugs) ⟨[], [], []⟩ d r hr hr2 (Or.inr hd)
  · unfold resolveAll
    exact lookup_r2d_foldl net (safe_drugs drugs) ⟨[], [], []⟩ r (Or.inr ⟨d, hd, hr, hr2⟩)

/-- Witness for the amended C3 at the concrete run of `C3_net` on
`["tylenol", "coumadin"]`. -/
theorem C3_amended_witness :
    List.lookup "tylenol" (resolveAll C3_net ["tylenol", "coumadin"]).drug_to_rxcui
        = some "161"
    ∧ (∃ d2, List.lookup "161" (resolveAll C3_net ["tylenol", "coumadin"]).rxcui_to_drug
        = some d2 ∧ get_rxcui C3_net d2 = some "161")
    ∧ List.lookup "tylenol" (interaction_map C3_net ["tylenol", "coumadin"])
        = some (if (valid_rxcuis C3_net ["tylenol", "coumadin"]).length > 1 then
            (get_interactions C3_net (valid_rxcuis C3_net ["tylenol", "coumadin"])).flatMap
              (fun i =>
                if matchesDrug "tylenol" i then
                  List.replicate ((safe_drugs ["tylenol", "coumadin"]).count "tylenol")
                    (fmtInteraction i)
                else [])
          else []) :=
  C3_amended C3_net ["tylenol", "coumadin"] "tylenol" "161" (by decide) rfl (by decide)

/-- Claim C4 counterexample: with the duplicated input batch
`["tylenol", "tylenol", "coumadin"]` and one matching pair, the attributed
list for "tylenol" contains the formatted pair twice (once per occurrence
scanned by the attribution loop), not "exactly those pairs": the filtered
pair list formats to a single string. -/
theorem C4_counterexample :
    (valid_rxcuis C4_net ["tylenol", "tylenol", "coumadin"]).length > 1
    ∧ get_interactions C4_net (valid_rxcuis C4_net ["tylenol", "tylenol", "coumadin"])
        = [⟨"Tylenol", "Coumadin", "Risk of bleeding."⟩]
    ∧ ((get_interactions C4_net (valid_rxcuis C4_net ["tylenol", "tylenol", "coumadin"])).filter
          (fun i => matchesDrug "tylenol" i)).map fmtInteraction
        = ["Tylenol ↔ Coumadin: Risk of bleeding."]
    ∧ List.lookup "tylenol" (interaction_map C4_net ["tylenol", "tylenol", "coumadin"])
        = some ["Tylenol ↔ Coumadin: Risk of bleeding.",
                "Tylenol ↔ Coumadin: Risk of bleeding."] := by
  refine ⟨by decide, rfl, rfl, rfl⟩

/-- Claim C4 (amended): when the interaction call is made, a resolved drug
name occurring exactly once among the non-hazardous inputs is attributed
exactly the pairs whose source or target concept name equals it
case-insensitively, formatted as source ↔ target: description, in the order
the pairs were discovered during flattening (a name occurring k times gets
each matching pair appended k times instead). -/
theorem C4_attribution (net : Net) (drugs : List String) (d r : String)
    (hr : get_rxcui net d = some r) (hr2 : r ≠ "")
    (hcount : (safe_drugs drugs).count d = 1)
    (hcall : (valid_rxcuis net drugs).length > 1) :
    List.lookup d (interaction_map net drugs)
      = some (((get_interactions net (valid_rxcuis net drugs)).filter
          (fun i => matchesDrug d i)).map fmtInteraction) := by
  have hd : d ∈ safe_drugs drugs := by
    have : 0 < (safe_drugs drugs).count d := by rw [hcount]; exact Nat.one_pos
    exact List.count_pos_iff.mp this
  rw [lookup_interaction_map net drugs d hd, if_pos hcall, hcount]
  simp only [List.replicate_one]
  rw [flatMap_singleton_filter]

/-- Witness for the amended C4 at the concrete run of `C4_net` on the
duplicate-free batch `["tylenol", "coumadin"]`. -/
theorem C4_attribution_witness :
    List.lookup "tylenol" (interaction_map C4_net ["tylenol", "coumadin"])
      = some (((get_interactions C4_net (valid_rxcuis C4_net ["tylenol", "coumadin"])).filter
          (fun i => matchesDrug "tylenol" i)).map fmtInteraction) :=
  C4_attribution C4_net ["tylenol", "coumadin"] "tylenol" "161" rfl (by decide)
    (by decide) (by decide)

theorem check_drugs_of_map_skip (net : Net) (drugs : List String) (age : Int)
    (him : interaction_map net drugs = initInteractionMap (safe_drugs drugs)) :
    check_drugs net drugs age
      = hazardResults drugs
        ++ ((safe_drugs drugs).filter (fun d => resolutionFailed net d)).map unknownEntry
        ++ (safe_drugs drugs).map (fun d => finalEntry age d []) := by
  have hres : (resolveAll net drugs).results
      = ((safe_drugs drugs).filter (fun d => resolutionFailed net d)).map unknownEntry := by
    unfold resolveAll
    rw [resolve_foldl_results]
    rfl
  have hfin : finalResults net drugs age
      = (safe_drugs drugs).map (fun d => finalEntry age d []) :=
    finalResults_of_empty_map net drugs age (fun d hd => by
      rw [him, lookup_initInteractionMap _ _ hd]
      rfl)
  unfold check_drugs
  rw [hres, hfin]

/-- Claim C7: if the batched interaction call fails — the transport fails or
the response does not parse — every safe drug is treated as having zero
interactions: the flattened list is empty and each final-pass entry reads
"None" / "Safe drug for age" with the default alternatives, while the whole
report (hazard block, failure block, final block) is still produced. -/
theorem C7_interaction_failure (net : Net) (drugs : List String) (age : Int)
    (hcall : (valid_rxcuis net drugs).length > 1)
    (hfail : net.interactionResponse (String.intercalate "+" (valid_rxcuis net drugs)) = none
      ∨ ∃ data,
          net.interactionResponse (String.intercalate "+" (valid_rxcuis net drugs)) = some data
          ∧ parsePairs (data.flatMap FullInteractionTypeGroup.fullInteractionType) = none) :
    get_interactions net (valid_rxcuis net drugs) = []
    ∧ check_drugs net drugs age
        = hazardResults drugs
          ++ ((safe_drugs drugs).filter (fun d => resolutionFailed net d)).map unknownEntry
          ++ (safe_drugs drugs).map (fun d => finalEntry age d []) := by
  have hgi : get_interactions net (valid_rxcuis net drugs) = [] := by
    unfold get_interactions
    rcases hfail with h | ⟨data, h, hp⟩
    · simp only [h]
    · simp only [h, hp]
      rfl
  have him : interaction_map net drugs = initInteractionMap (safe_drugs drugs) := by
    unfold interaction_map
    simp only [hgi, List.foldl_nil, ite_self]
  exact ⟨hgi, check_drugs_of_map_skip net drugs age him⟩

/-- Witness for C7: two resolving drugs, transport failure on the batched
call. -/
theorem C7_witness :
    get_interactions C7_net (valid_rxcuis C7_net ["metformin", "lisinopril"]) = []
    ∧ check_drugs C7_net ["metformin", "lisinopril"] 40
        = hazardResults ["metformin", "lisinopril"]
          ++ ((safe_drugs ["metformin", "lisinopril"]).filter
              (fun d => resolutionFailed C7_net d)).map unknownEntry
          ++ (safe_drugs ["metformin", "lisinopril"]).map (fun d => finalEntry 40 d []) :=
  C7_interaction_failure C7_net ["metformin", "lisinopril"] 40 (by decide) (Or.inl rfl)

/-- Claim C8: when fewer than two identifiers resolved, the interaction
service is never consulted — the output is invariant under replacing the
interaction-response function by any other — and every safe drug's final
entry has interactions "None", reason "Safe drug for age" and the default
alternatives (in particular every hazard-free, successfully resolved drug). -/
theorem C8_skip_call (net : Net) (g : String → Option (List FullInteractionTypeGroup))
    (drugs : List String) (age : Int)
    (hle : ¬ (valid_rxcuis net drugs).length > 1) :
    check_drugs ⟨net.rxcuiResponse, g⟩ drugs age = check_drugs net drugs age
    ∧ check_drugs net drugs age
        = hazardResults drugs
          ++ ((safe_drugs drugs).filter (fun d => resolutionFailed net d)).map unknownEntry
          ++ (safe_drugs drugs).map (fun d => finalEntry age d []) := by
  constructor
  · have hra : resolveAll ⟨net.rxcuiResponse, g⟩ drugs = resolveAll net drugs :=
      resolveAll_congr net ⟨net.rxcuiResponse, g⟩ drugs (fun _ _ => rfl)
    have hv : valid_rxcuis ⟨net.rxcuiResponse, g⟩ drugs = valid_rxcuis net drugs := by
      unfold valid_rxcuis
      rw [hra]
    have him : interaction_map ⟨net.rxcuiResponse, g⟩ drugs = interaction_map net drugs := by
      rw [interaction_map_skip _ _ (by rw [hv]; exact hle), interaction_map_skip net drugs hle]
    unfold check_drugs finalResults
    rw [hra, him]
  · exact check_drugs_of_map_skip net drugs age (interaction_map_skip net drugs hle)

/-- Witness for C8: a single resolving drug; the interaction responses are
irrelevant and the entry carries "None" with the default alternatives. -/
theorem C8_witness :
    check_drugs ⟨C8_net.rxcuiResponse, fun _ => some []⟩ ["cetirizine"] 30
        = check_drugs C8_net ["cetirizine"] 30
    ∧ check_drugs C8_net ["cetirizine"] 30
        = hazardResults ["cetirizine"]
          ++ ((safe_drugs ["cetirizine"]).filter
              (fun d => resolutionFailed C8_net d)).map unknownEntry
          ++ (safe_drugs ["cetirizine"]).map (fun d => finalEntry 30 d []) :=
  C8_skip_call C8_net (fun _ => some []) ["cetirizine"] 30 (by decide)

/-- Claim C9: every final-pass entry (in particular every entry built for a
resolved, non-hazardous drug) has age_risk "Needs pediatric check" exactly
when the request age is at most 12 and "Low" exactly when it exceeds 12; the
value is the same fixed threshold function of the age for every drug, with no
per-drug override. -/
theorem C9_age_threshold (net : Net) (drugs : List String) (age : Int)
    (e : ReportEntry) (he : e ∈ finalResults net drugs age) :
    e.age_risk = (if age > 12 then "Low" else "Needs pediatric check")
    ∧ (e.age_risk = "Needs pediatric check" ↔ age ≤ 12)
    ∧ (e.age_risk = "Low" ↔ age > 12) := by
  obtain ⟨d, hd, he2⟩ := List.mem_map.mp he
  have har : e.age_risk = (if age > 12 then "Low" else "Needs pediatric check") := by
    rw [← he2]
    rfl
  refine ⟨har, ?_, ?_⟩
  · rw [har]
    by_cases h : age > 12
    · rw [if_pos h]
      constructor
      · intro hs
        exact absurd hs (by decide)
      · intro hle
        exact absurd h (by omega)
    · rw [if_neg h]
      constructor
      · intro _
        omega
      · intro _
        rfl
  · rw [har]
    by_cases h : age > 12
    · rw [if_pos h]
      exact ⟨fun _ => h, fun _ => rfl⟩
    · rw [if_neg h]
      constructor
      · intro hs
        exact absurd hs (by decide)
      · intro hl
        exact absurd hl h

/-- Witness for C9 at age 10 for the resolved drug "ranitidine". -/
theorem C9_witness :
    (finalEntry 10 "ranitidine" []).age_risk
        = (if (10 : Int) > 12 then "Low" else "Needs pediatric check")
    ∧ ((finalEntry 10 "ranitidine" []).age_risk = "Needs pediatric check" ↔ (10 : Int) ≤ 12)
    ∧ ((finalEntry 10 "ranitidine" []).age_risk = "Low" ↔ (10 : Int) > 12) :=
  C9_age_threshold C9_net ["ranitidine"] 10 (finalEntry 10 "ranitidine" []) (by decide)

/-- Claim C10: on every path the emitted entry's drug field is the input name
verbatim: the drug fields of the output are, in order, the hazard-flagged
input names, then the safe names that failed resolution, then every safe
name, each taken unchanged (original casing) from the input list even though
hazard lookup and matching compare lowercased names. -/
theorem C10_drug_verbatim (net : Net) (drugs : List String) (age : Int) :
    (check_drugs net drugs age).map ReportEntry.drug
      = drugs.filter (fun d => (hazardInfo d).isSome)
        ++ (safe_drugs drugs).filter (fun d => resolutionFailed net d)
        ++ safe_drugs drugs := by
  unfold check_drugs
  rw [List.map_append, List.map_append, hazardResults_map_drug, finalResults_map_drug]
  congr 1
  congr 1
  unfold resolveAll
  rw [resolve_foldl_results]
  exact map_drug_unknownEntry _
